import Mathlib

/-!
Verification of the media-organizer catalog store and CLI glue.

The repository (src/main.py, src/src/utils/{config,database,logger}.py)
is an application skeleton: it declares the SQLAlchemy schema, the
configuration loader and the logging facade, while the store operations
(`transition`, `upsert_media_file`, validation, delete) exist only as the
contracts of the specification.  Schema declarations, the configuration
merge, the CLI exception dispatch and the global singleton accessors are
embedded from the source; the store operations are modelled from the
specification and are marked as such in their doc comments.

Modelling conventions: SQL `Float` columns become `Rat` (the claims are
order/equality properties, which `Rat` captures exactly), nullable columns
become `Option`, `JSON` payloads become opaque `String`s, `DateTime`
becomes `Nat` (a timestamp), and Python exceptions become explicit error
values returned next to the (unchanged-on-error) state.
-/

namespace MediaOrganizer

/-- `ProcessingStatus` enum from src/src/utils/database.py lines 17-27. -/
inductive ProcessingStatus
  | pending
  | fingerprinting
  | metadata_lookup
  | ml_scoring
  | review_needed
  | organizing
  | completed
  | failed
  | skipped
  deriving DecidableEq, Repr

/-- `MediaType` enum from src/src/utils/database.py lines 30-34. -/
inductive MediaType
  | audio
  | video
  | unknown
  deriving DecidableEq, Repr

/-- `ReviewStatus` enum from src/src/utils/database.py lines 37-42. -/
inductive ReviewStatus
  | pending
  | approved
  | rejected
  | corrected
  deriving DecidableEq, Repr

/-- Error taxonomy of spec section 7: NotFoundError, ConflictError,
InvalidTransitionError, ValidationError, StorageUnavailableError. -/
inductive StoreError
  | notFoundError
  | conflictError
  | invalidTransitionError
  | validationError
  | storageUnavailableError
  deriving DecidableEq, Repr

/-- Modelled from the spec (section 4.1): `completed`, `failed` and
`skipped` are the terminal states of the status state machine. -/
def ProcessingStatus.isTerminal : ProcessingStatus → Bool
  | .completed => true
  | .failed => true
  | .skipped => true
  | _ => false

/-- Modelled from the spec: the transition table of section 4.1 on
`MediaFile.status`, which no code under src/ implements.  The explicit
arrows are `pending → fingerprinting → metadata_lookup → ml_scoring →
review_needed | organizing → completed`, `review_needed → organizing`,
`review_needed → failed`, plus `failed` and `skipped` reachable from any
non-terminal state.  The automatic retry re-entry from `failed` is a
policy outside `transition` (spec section 7) and is not an arrow of the
table. -/
def allowedTransition : ProcessingStatus → ProcessingStatus → Bool
  | .pending, .fingerprinting => true
  | .fingerprinting, .metadata_lookup => true
  | .metadata_lookup, .ml_scoring => true
  | .ml_scoring, .review_needed => true
  | .ml_scoring, .organizing => true
  | .review_needed, .organizing => true
  | .review_needed, .failed => true
  | .organizing, .completed => true
  | s, .failed => !s.isTerminal
  | s, .skipped => !s.isTerminal
  | _, _ => false

/-- `MediaFile` row, from src/src/utils/database.py lines 45-83.
Columns are carried verbatim; relationships are represented by the child
tables of `Store` keyed by `media_file_id`. -/
structure MediaFileRow where
  id : Nat
  original_path : String
  filename : String
  file_size : Nat
  file_hash : String
  media_type : MediaType
  status : ProcessingStatus := .pending
  confidence_score : Rat := 0
  created_at : Nat := 0
  updated_at : Nat := 0
  processed_at : Option Nat := none
  output_path : Option String := none
  usb_device_id : Option String := none
  is_on_usb : Bool := false
  error_message : Option String := none
  retry_count : Nat := 0
  deriving DecidableEq, Repr

/-- `Fingerprint` row, from src/src/utils/database.py lines 86-114. -/
structure FingerprintRow where
  id : Nat
  media_file_id : Option Nat
  chromaprint_fingerprint : Option String := none
  chromaprint_duration : Option Rat := none
  acoustid_id : Option String := none
  acoustid_score : Option Rat := none
  video_hash : Option String := none
  scene_hashes : Option String := none
  duration : Option Rat := none
  bitrate : Option Nat := none
  sample_rate : Option Nat := none
  channels : Option Nat := none
  codec : Option String := none
  created_at : Nat := 0
  deriving DecidableEq, Repr

/-- `MediaMetadata` row, from src/src/utils/database.py lines 117-166. -/
structure MediaMetadataRow where
  id : Nat
  media_file_id : Option Nat
  title : Option String := none
  artist : Option String := none
  album : Option String := none
  year : Option Nat := none
  genre : Option String := none
  musicbrainz_id : Option String := none
  musicbrainz_artist_id : Option String := none
  musicbrainz_album_id : Option String := none
  track_number : Option Nat := none
  disc_number : Option Nat := none
  tmdb_id : Option Nat := none
  imdb_id : Option String := none
  season : Option Nat := none
  episode : Option Nat := none
  description : Option String := none
  language : Option String := none
  country : Option String := none
  is_italian : Bool := false
  italian_confidence : Option Rat := some 0
  artwork_url : Option String := none
  artwork_local_path : Option String := none
  metadata_source : Option String := none
  metadata_quality : Rat := 0
  created_at : Nat := 0
  updated_at : Nat := 0
  deriving DecidableEq, Repr

/-- `MLFeatures` row, from src/src/utils/database.py lines 169-195. -/
structure MLFeaturesRow where
  id : Nat
  media_file_id : Option Nat
  mfcc : Option String := none
  spectral_centroid : Option String := none
  spectral_rolloff : Option String := none
  spectral_contrast : Option String := none
  zero_crossing_rate : Option String := none
  tempo : Option Rat := none
  chroma : Option String := none
  feature_vector : Option String := none
  italian_language_features : Option String := none
  created_at : Nat := 0
  deriving DecidableEq, Repr

/-- `ReviewQueue` row, from src/src/utils/database.py lines 229-253. -/
structure ReviewQueueRow where
  id : Nat
  media_file_id : Option Nat
  review_status : ReviewStatus := .pending
  confidence_score : Rat
  reason : Option String := none
  suggested_metadata : Option String := none
  corrected_metadata : Option String := none
  reviewer_notes : Option String := none
  created_at : Nat := 0
  reviewed_at : Option Nat := none
  deriving DecidableEq, Repr

/-- The Media Catalog Store state: the MediaFile aggregate roots together
with their owned child tables (spec sections 2-3); each child row points
back through its `media_file_id` foreign key. -/
structure Store where
  media_files : List MediaFileRow := []
  fingerprints : List FingerprintRow := []
  media_metadata : List MediaMetadataRow := []
  ml_features : List MLFeaturesRow := []
  review_queue : List ReviewQueueRow := []
  deriving DecidableEq, Repr

/-- Look a MediaFile row up by primary key. -/
def Store.findFile (db : Store) (file_id : Nat) : Option MediaFileRow :=
  db.media_files.find? (fun r => r.id == file_id)

/-- Optional simultaneous field updates carried by a `transition` call
(spec section 4.1: "must be atomic with any simultaneous field updates"). -/
structure FieldUpdates where
  confidence_score : Option Rat := none
  output_path : Option String := none
  error_message : Option String := none
  processed_at : Option Nat := none
  deriving DecidableEq, Repr

/-- Apply the committed status change and field updates to one row. -/
def applyUpdates (r : MediaFileRow) (new_status : ProcessingStatus)
    (f : FieldUpdates) : MediaFileRow :=
  { r with
    status := new_status
    confidence_score := f.confidence_score.getD r.confidence_score
    output_path := f.output_path <|> r.output_path
    error_message := f.error_message <|> r.error_message
    processed_at := f.processed_at <|> r.processed_at }

/-- Modelled from the spec: `transition(file_id, new_status, fields...)`
of section 4.1, which no code under src/ implements.  It rejects
transitions not in the table with `InvalidTransitionError`, rejects an
unknown `file_id` with `NotFoundError`, validates a simultaneous
`confidence_score` write against [0,1] (`ValidationError`, spec sections
7 and 8), and commits the status change atomically with the field
updates.  The returned store is the input store whenever an error is
reported: failure mutates nothing. -/
def commitTransition (db : Store) (file_id : Nat) (new_status : ProcessingStatus)
    (fields : FieldUpdates) : Store :=
  { db with media_files :=
      db.media_files.map fun x =>
        if x.id == file_id then applyUpdates x new_status fields else x }

def transition (db : Store) (file_id : Nat) (new_status : ProcessingStatus)
    (fields : FieldUpdates) : Store × Option StoreError :=
  match db.findFile file_id with
  | none => (db, some .notFoundError)
  | some r =>
    if allowedTransition r.status new_status then
      match fields.confidence_score with
      | some c =>
        if 0 ≤ c ∧ c ≤ 1 then (commitTransition db file_id new_status fields, none)
        else (db, some .validationError)
      | none => (commitTransition db file_id new_status fields, none)
    else (db, some .invalidTransitionError)

/-- Modelled from the spec: `upsert_media_file(path, hash, size, type)` of
section 4.1, which no code under src/ implements.  It fails with
`ConflictError` if `hash` already exists under a different `path`
(`file_hash` is a unique content-address, database.py line 55); a repeat
call for an already-present `(path, hash)` returns the existing row; a
fresh pair inserts a new row whose `status` is the initial `pending` and
whose `confidence_score` is the schema default `0.0`.  The spec leaves
`filename` derivation to the ingestion collaborator, so the stored
`filename` is the given path.  The returned store is unchanged whenever
an error is reported. -/
def upsert_media_file (db : Store) (path : String) (hash : String)
    (size : Nat) (mtype : MediaType) : Store × Except StoreError MediaFileRow :=
  match db.media_files.find? (fun r => r.file_hash == hash) with
  | some r =>
    if r.original_path == path then (db, .ok r)
    else (db, .error .conflictError)
  | none =>
    let row : MediaFileRow :=
      { id := db.media_files.length + 1
        original_path := path
        filename := path
        file_size := size
        file_hash := hash
        media_type := mtype }
    ({ db with media_files := db.media_files ++ [row] }, .ok row)

/-- Look a MediaFile row up by its content hash (a read of the store). -/
def Store.findByHash (db : Store) (hash : String) : Option MediaFileRow :=
  db.media_files.find? (fun r => r.file_hash == hash)

/-- Modelled from the spec: the update writing `confidence_score` on a
MediaFile row, which no code under src/ implements.  Section 8 requires
that a write outside [0.0, 1.0] fail with `ValidationError`; as with every
store operation, failure returns the store unchanged. -/
def set_confidence_score (db : Store) (file_id : Nat) (c : Rat) :
    Store × Option StoreError :=
  if 0 ≤ c ∧ c ≤ 1 then
    match db.findFile file_id with
    | none => (db, some .notFoundError)
    | some _ =>
      ({ db with media_files :=
          db.media_files.map fun x =>
            if x.id == file_id then { x with confidence_score := c } else x },
        none)
  else (db, some .validationError)

/-- Modelled from the spec: `attach_metadata(file_id, payload)` of section
4.1, which no code under src/ implements.  It is an idempotent upsert of
the 1:1 MediaMetadata child, fails with `NotFoundError` if `file_id` is
unknown, and enforces the section-3 invariant that `is_italian=true`
carries a non-null `italian_confidence` (`ValidationError` otherwise).
The stored row is the payload re-keyed to `file_id`; failure returns the
store unchanged. -/
def attach_metadata (db : Store) (file_id : Nat) (payload : MediaMetadataRow) :
    Store × Option StoreError :=
  if payload.is_italian ∧ payload.italian_confidence = none then
    (db, some .validationError)
  else
    match db.findFile file_id with
    | none => (db, some .notFoundError)
    | some _ =>
      let row := { payload with media_file_id := some file_id }
      ({ db with media_metadata :=
          (db.media_metadata.filter fun m => m.media_file_id ≠ some file_id) ++ [row] },
        none)

/-- Read the 1:1 MediaMetadata child of a MediaFile back. -/
def Store.findMetadata (db : Store) (file_id : Nat) : Option MediaMetadataRow :=
  db.media_metadata.find? (fun m => m.media_file_id == some file_id)

/-- Modelled from the spec: deleting a MediaFile (section 3: "MediaFile is
the aggregate root; Fingerprint/MediaMetadata/MLFeatures/ReviewQueue are
owned 1:1 and deleted when their MediaFile is deleted"), which no code
under src/ implements.  The row and every owned 1:1 child keyed to it are
removed together. -/
def delete_media_file (db : Store) (file_id : Nat) : Store :=
  { media_files := db.media_files.filter fun r => r.id ≠ file_id
    fingerprints := db.fingerprints.filter fun r => r.media_file_id ≠ some file_id
    media_metadata := db.media_metadata.filter fun r => r.media_file_id ≠ some file_id
    ml_features := db.ml_features.filter fun r => r.media_file_id ≠ some file_id
    review_queue := db.review_queue.filter fun r => r.media_file_id ≠ some file_id }

/-- Every MediaFile row carries a `confidence_score` within [0.0, 1.0]
(invariant of spec sections 3 and 8). -/
def Store.confidenceInv (db : Store) : Prop :=
  ∀ r ∈ db.media_files, 0 ≤ r.confidence_score ∧ r.confidence_score ≤ 1

instance (db : Store) : Decidable db.confidenceInv :=
  inferInstanceAs (Decidable (∀ r ∈ db.media_files, _ ∧ _))

/-- Every MediaMetadata row with `is_italian = true` carries a non-null
`italian_confidence` (invariant of spec section 3). -/
def Store.italianInv (db : Store) : Prop :=
  ∀ m ∈ db.media_metadata, m.is_italian → m.italian_confidence ≠ none

instance (db : Store) : Decidable db.italianInv :=
  inferInstanceAs (Decidable (∀ m ∈ db.media_metadata, _ → _))

/-! ## Schema creation (database.py lines 308-348, main.py lines 126-133) -/

/-- The `__tablename__`s declared on the eight `Base` subclasses of
src/src/utils/database.py, in declaration order. -/
def tableNames : List String :=
  ["media_files", "fingerprints", "media_metadata", "ml_features",
   "ml_models", "review_queue", "ml_feedback", "processing_logs"]

/-- `DatabaseManager.create_tables` (database.py lines 322-324):
`Base.metadata.create_all` creates each declared table that is missing and
leaves every existing table untouched.  The database file is represented
by the list of tables it holds. -/
def create_tables (existing : List String) : List String :=
  existing ++ tableNames.filter (fun t => !(existing.contains t))

/-- Python exceptions distinguished by the `try/except` dispatch of
main.py lines 126-148 and by config.py/logger.py. -/
inductive PyError
  | fileNotFoundError (msg : String)
  | valueError (msg : String)
  | runtimeError (msg : String)
  | otherError (msg : String)
  deriving DecidableEq, Repr

/-! ## Configuration (src/src/utils/config.py) -/

/-- `AppConfig` (config.py lines 10-14). -/
structure AppConfig where
  name : String := "Media Organizer"
  version : String := "1.0.0"
  log_level : String := "INFO"
  deriving DecidableEq, Repr

/-- `PathsConfig` (config.py lines 17-33). -/
structure PathsConfig where
  input_folder : String
  output_folder : String
  cache_folder : String := "./data/cache"
  models_folder : String := "./data/models"
  queue_folder : String := "./data/queue"
  log_folder : String := "./logs"
  database : String := "./data/media_organizer.db"
  deriving DecidableEq, Repr

/-- `MusicBrainzConfig` (config.py lines 57-60). -/
structure MusicBrainzConfig where
  enabled : Bool := true
  rate_limit : Rat := 1
  deriving DecidableEq, Repr

/-- `TMDBConfig` (config.py lines 63-66). -/
structure TMDBConfig where
  enabled : Bool := true
  api_key : String := ""
  deriving DecidableEq, Repr

/-- `MetadataConfig` (config.py lines 69-72). -/
structure MetadataConfig where
  musicbrainz : MusicBrainzConfig := {}
  tmdb : TMDBConfig := {}
  deriving DecidableEq, Repr

/-- `MLConfig` (config.py lines 75-80). -/
structure MLConfig where
  enabled : Bool := true
  confidence_threshold : Rat := 3/4
  retrain_interval : Nat := 100
  italian_music_boost : Rat := 6/5
  deriving DecidableEq, Repr

/-- `ReviewConfig` (config.py lines 83-87). -/
structure ReviewConfig where
  enabled : Bool := true
  confidence_threshold : Rat := 3/4
  auto_approve_above : Rat := 19/20
  deriving DecidableEq, Repr

/-- `Config`, the main configuration model (config.py lines 106-115).
The fingerprinting/usb/backup sub-models carry only Boolean toggles and
intervals untouched by any claim and are elided. -/
structure Config where
  app : AppConfig := {}
  paths : PathsConfig
  metadata : MetadataConfig := {}
  ml : MLConfig := {}
  review : ReviewConfig := {}
  deriving DecidableEq, Repr

/-- The secrets merge of `ConfigManager.load` (config.py lines 156-161):
the secret replaces the config value exactly when the `tmdb_api_key` key
is present and truthy (a YAML string is truthy iff non-empty). -/
def mergeTmdbApiKey (cfgKey : String) (secret : Option String) : String :=
  match secret with
  | some s => if s = "" then cfgKey else s
  | none => cfgKey

/-- `ConfigManager` (config.py lines 118-130): holds the main config path,
the secrets path and the loaded configuration. -/
structure ConfigManager where
  config_path : String
  secrets_path : String
  config : Option Config := none
  deriving DecidableEq, Repr

/-- `ConfigManager.__init__` (config.py lines 121-130): whatever
`config_path` is passed, `secrets_path` is the fixed relative path
`config/secrets.yaml`. -/
def ConfigManager.init (config_path : String := "config/config.yaml") : ConfigManager :=
  { config_path := config_path
    secrets_path := "config/secrets.yaml"
    config := none }

/-- `ConfigManager.load` (config.py lines 132-169).  The filesystem is
passed explicitly: `mainFiles` maps a path to the parsed-and-validated
main config (none when the file is absent, raising `FileNotFoundError`),
and `secretsFiles` maps a path to the parsed secrets file (outer `none`
when the file is absent; the inner value is the `tmdb_api_key` entry,
`none` when that key is absent).  The code merges the secret into the
raw dict before pydantic parsing; since the merge only rewrites
`metadata.tmdb.api_key`, applying it to the parsed `Config` is
observationally the same.  Directory creation is I/O glue with no
modelled effect. -/
def ConfigManager.load (cm : ConfigManager)
    (mainFiles : String → Option Config)
    (secretsFiles : String → Option (Option String)) :
    Except PyError (ConfigManager × Config) :=
  match mainFiles cm.config_path with
  | none => .error (.fileNotFoundError ("Configuration file not found: " ++ cm.config_path))
  | some cfg =>
    let secret : Option String := (secretsFiles cm.secrets_path).bind id
    let key := mergeTmdbApiKey cfg.metadata.tmdb.api_key secret
    let merged : Config :=
      { cfg with metadata :=
          { cfg.metadata with tmdb := { cfg.metadata.tmdb with api_key := key } } }
    .ok ({ cm with config := some merged }, merged)

/-- `ConfigManager.get` (config.py lines 186-198): `RuntimeError` when
nothing has been loaded. -/
def ConfigManager.get (cm : ConfigManager) : Except PyError Config :=
  match cm.config with
  | none => .error (.runtimeError "Configuration not loaded. Call load() first.")
  | some c => .ok c

/-- `load_config` (config.py lines 205-217): replaces the global
`_config_manager` with a fresh manager, then loads.  The pair returned is
the new global state and the outcome; on a load exception the global is
the fresh manager whose `config` is still `none`, exactly as in the
source (assignment happens before `load()` raises). -/
def load_config (config_path : String)
    (mainFiles : String → Option Config)
    (secretsFiles : String → Option (Option String)) :
    Option ConfigManager × Except PyError Config :=
  let cm := ConfigManager.init config_path
  match cm.load mainFiles secretsFiles with
  | .error e => (some cm, .error e)
  | .ok (cm2, cfg) => (some cm2, .ok cfg)

/-- `get_config` (config.py lines 220-232): applied to the global
`_config_manager` state, `RuntimeError` when it is unset, otherwise
`ConfigManager.get`. -/
def get_config (g : Option ConfigManager) : Except PyError Config :=
  match g with
  | none => .error (.runtimeError "Configuration not loaded. Call load_config() first.")
  | some cm => cm.get

/-! ## Logger facade (src/src/utils/logger.py) -/

/-- `LoggerManager` (logger.py lines 10-45): the handler configuration it
installs on the process-wide loguru logger. -/
structure LoggerManager where
  log_dir : String := "./logs"
  log_level : String := "INFO"
  rotation : String := "10 MB"
  retention : String := "1 week"
  compression : String := "zip"
  deriving DecidableEq, Repr

/-- `LoggerManager.get_logger` (logger.py lines 95-97): the configured
logger is determined by the manager's handler configuration, so it is
represented by the manager itself. -/
def LoggerManager.get_logger (m : LoggerManager) : LoggerManager := m

/-- `init_logger` (logger.py lines 115-140): replaces the global
`_logger_manager` and returns the configured logger. -/
def init_logger (log_dir : String := "./logs") (log_level : String := "INFO")
    (rotation : String := "10 MB") (retention : String := "1 week") :
    Option LoggerManager × LoggerManager :=
  let m : LoggerManager :=
    { log_dir := log_dir, log_level := log_level
      rotation := rotation, retention := retention }
  (some m, m.get_logger)

/-- `get_logger` (logger.py lines 143-152): applied to the global
`_logger_manager` state; `RuntimeError` when it is unset. -/
def get_logger (g : Option LoggerManager) : Except PyError LoggerManager :=
  match g with
  | none => .error (.runtimeError "Logger not initialized. Call init_logger() first.")
  | some m => .ok m.get_logger

/-- `audit_log` (logger.py lines 155-165): `RuntimeError` when the global
manager is unset; otherwise the audit record is emitted. -/
def audit_log (g : Option LoggerManager) (message : String) : Except PyError String :=
  match g with
  | none => .error (.runtimeError "Logger not initialized. Call init_logger() first.")
  | some _ => .ok message

/-! ## CLI entry point (src/main.py lines 126-148) -/

/-- The `try/except` dispatch of `main` (main.py lines 126-148): the body
(either the `--init-db` branch or constructing and running
`MediaOrganizer`) completes normally or raises; `main` maps that outcome
to an exit code and the lines printed to standard error.  Python's
`RuntimeError` is an `Exception` subclass, so it lands in the generic
handler. -/
def mainResult : Option PyError → Nat × List String
  | none => (0, [])
  | some (.fileNotFoundError m) => (1, ["Error: " ++ m])
  | some (.valueError m) => (1, ["Configuration error: " ++ m])
  | some (.runtimeError m) => (1, ["Fatal error: " ++ m])
  | some (.otherError m) => (1, ["Fatal error: " ++ m])

/-- The `--init-db` branch of `main` (main.py lines 127-133): load the
configuration, create the schema tables on the configured database, and
return exit code 0; a config-load exception falls through to the
`except` handlers.  Result: the database's tables afterwards, the exit
code, and the stderr lines. -/
def runInitDb (cfgLoad : Except PyError Config) (db : List String) :
    List String × Nat × List String :=
  match cfgLoad with
  | .ok _ => (create_tables db, mainResult none)
  | .error e => (db, mainResult (some e))

/-- The default `main` path (main.py lines 135-148): construct
`MediaOrganizer` (which loads the configuration and may raise) and run
it; the run loop currently only idles, logs, and shuts down gracefully,
so a successful construction completes normally. -/
def runMain (cfgLoad : Except PyError Config) : Nat × List String :=
  match cfgLoad with
  | .ok _ => mainResult none
  | .error e => mainResult (some e)

/-! ## Shared sample data for concrete evaluations -/

/-- The media file of the spec section 8 scenario. -/
def sampleRow : MediaFileRow :=
  { id := 1
    original_path := "/in/song.mp3"
    filename := "/in/song.mp3"
    file_size := 5242880
    file_hash := "abc123"
    media_type := .audio }

/-- A store holding exactly the sample file. -/
def sampleStore : Store := { media_files := [sampleRow] }

/-- A minimal valid configuration (both critical paths set). -/
def sampleConfig : Config :=
  { paths := { input_folder := "./data/input", output_folder := "./data/output" } }

/-- A MediaMetadata payload with every descriptive field at its schema
default. -/
def samplePayload : MediaMetadataRow := { id := 2, media_file_id := none }

/-- A payload claiming `is_italian` with a null `italian_confidence`. -/
def samplePayloadBad : MediaMetadataRow :=
  { id := 3, media_file_id := none, is_italian := true, italian_confidence := none }

/-- The `metadata.tmdb.api_key` a load run ends with (none when the load
raises). -/
def loadedApiKey (cm : ConfigManager) (mainFiles : String → Option Config)
    (secretsFiles : String → Option (Option String)) : Option String :=
  match cm.load mainFiles secretsFiles with
  | .ok (_, c) => some c.metadata.tmdb.api_key
  | .error _ => none

/-- A filesystem whose only main config file sits at `custom/app.yaml`
and holds no API key. -/
def mainFilesSample : String → Option Config := fun p =>
  if p = "custom/app.yaml" then some sampleConfig else none

/-- A working directory whose `config/secrets.yaml` supplies the key. -/
def secretsWithKey : String → Option (Option String) := fun p =>
  if p = "config/secrets.yaml" then some (some "SECRET-KEY") else none

/-- A working directory with no secrets file at all. -/
def secretsAbsent : String → Option (Option String) := fun _ => none

/-! ## Claims -/

/-- C1: for every MediaFile row and every attempted status change not in
the section 4.1 transition table, the store rejects the attempt with
`InvalidTransitionError` and the whole store — the row's status and all
other fields included — is returned unchanged. -/
theorem transition_rejects_invalid (db : Store) (file_id : Nat)
    (new_status : ProcessingStatus) (fields : FieldUpdates) (r : MediaFileRow)
    (hfind : db.findFile file_id = some r)
    (hnot : allowedTransition r.status new_status = false) :
    transition db file_id new_status fields = (db, some .invalidTransitionError) := by
  simp [transition, hfind, hnot]

/-- C1 witness: a `pending` file refuses the `pending → completed` jump. -/
theorem transition_rejects_invalid_witness :
    transition sampleStore 1 .completed {} = (sampleStore, some .invalidTransitionError) :=
  transition_rejects_invalid sampleStore 1 .completed {} sampleRow (by decide) (by decide)

/-- C2: inserting a MediaFile with a fresh hash and reading it back
returns a row whose `file_hash` and `original_path` equal the inputs, and
any second insertion with the same hash but a different path fails with
`ConflictError`, leaving the store unchanged (no second row stored). -/
theorem upsert_roundtrip_conflict (db : Store) (path hash : String)
    (size : Nat) (mtype : MediaType)
    (hfresh : ∀ r ∈ db.media_files, r.file_hash ≠ hash) :
    ∃ db2 row,
      upsert_media_file db path hash size mtype = (db2, .ok row) ∧
      row.file_hash = hash ∧
      row.original_path = path ∧
      db2.findByHash hash = some row ∧
      ∀ path2 size2 mtype2, path2 ≠ path →
        upsert_media_file db2 path2 hash size2 mtype2 = (db2, .error .conflictError) := by
  have hnone : db.media_files.find? (fun r => r.file_hash == hash) = none := by
    apply List.find?_eq_none.mpr
    intro x hx
    simpa using hfresh x hx
  have hup : upsert_media_file db path hash size mtype =
      ({ db with media_files := db.media_files ++
          [{ id := db.media_files.length + 1, original_path := path, filename := path,
             file_size := size, file_hash := hash, media_type := mtype }] },
        .ok { id := db.media_files.length + 1, original_path := path, filename := path,
              file_size := size, file_hash := hash, media_type := mtype }) := by
    simp [upsert_media_file, hnone]
  refine ⟨_, _, hup, rfl, rfl, ?_, ?_⟩
  · simp [Store.findByHash, List.find?_append, hnone]
  · intro path2 size2 mtype2 hne
    have hfind2 : (db.media_files ++
        [({ id := db.media_files.length + 1, original_path := path, filename := path,
            file_size := size, file_hash := hash,
            media_type := mtype } : MediaFileRow)]).find?
          (fun r => r.file_hash == hash) =
        some { id := db.media_files.length + 1, original_path := path, filename := path,
               file_size := size, file_hash := hash, media_type := mtype } := by
      simp [List.find?_append, hnone]
    simp [upsert_media_file, hfind2, (Ne.symm hne)]

/-- C2 witness: inserting the sample file into the empty store, reading
it back, and watching the same hash under a second path collide. -/
theorem upsert_roundtrip_conflict_witness :
    ∃ db2 row,
      upsert_media_file {} "/in/song.mp3" "abc123" 5242880 .audio = (db2, .ok row) ∧
      row.file_hash = "abc123" ∧
      row.original_path = "/in/song.mp3" ∧
      db2.findByHash "abc123" = some row ∧
      ∀ path2 size2 mtype2, path2 ≠ "/in/song.mp3" →
        upsert_media_file db2 path2 "abc123" size2 mtype2 = (db2, .error .conflictError) :=
  upsert_roundtrip_conflict {} "/in/song.mp3" "abc123" 5242880 .audio (by decide)

/-- A row-wise bounded update keeps the confidence invariant. -/
theorem confidenceInv_map (db : Store) (f : MediaFileRow → MediaFileRow)
    (hf : ∀ r, 0 ≤ r.confidence_score ∧ r.confidence_score ≤ 1 →
        0 ≤ (f r).confidence_score ∧ (f r).confidence_score ≤ 1)
    (hinv : db.confidenceInv) :
    Store.confidenceInv { db with media_files := db.media_files.map f } := by
  intro r hr
  simp only [List.mem_map] at hr
  obtain ⟨x, hx, rfl⟩ := hr
  exact hf x (hinv x hx)

/-- C3: a write of `confidence_score` outside [0.0, 1.0] fails with
`ValidationError` and leaves the store unchanged, and every mutating
store operation — the confidence update itself, `upsert_media_file`, and
`transition` with its simultaneous field writes — preserves the invariant
that every row's `confidence_score` lies within [0.0, 1.0]. -/
theorem confidence_score_invariant (db : Store) (file_id : Nat) (c : Rat)
    (path hash : String) (size : Nat) (mtype : MediaType)
    (new_status : ProcessingStatus) (fields : FieldUpdates) :
    (¬ (0 ≤ c ∧ c ≤ 1) →
      set_confidence_score db file_id c = (db, some .validationError)) ∧
    (db.confidenceInv → Store.confidenceInv (set_confidence_score db file_id c).1) ∧
    (db.confidenceInv → Store.confidenceInv (upsert_media_file db path hash size mtype).1) ∧
    (db.confidenceInv → Store.confidenceInv (transition db file_id new_status fields).1) := by
  refine ⟨?_, ?_, ?_, ?_⟩
  · intro h
    simp [set_confidence_score, h]
  · intro hinv
    unfold set_confidence_score
    split
    case isTrue hc =>
      cases hfe : db.findFile file_id with
      | none => simpa using hinv
      | some r =>
        simp only [hfe]
        refine confidenceInv_map db _ ?_ hinv
        intro x hx
        by_cases hid : (x.id == file_id) = true <;> simp [hid, hx, hc]
    case isFalse => simpa using hinv
  · intro hinv
    unfold upsert_media_file
    cases hfe : db.media_files.find? (fun r => r.file_hash == hash) with
    | some r => by_cases hp : (r.original_path == path) = true <;> simp [hp] <;> exact hinv
    | none =>
      simp only []
      intro r hr
      rcases List.mem_append.mp hr with hl | hl
      · exact hinv r hl
      · simp only [List.mem_singleton] at hl
        subst hl
        exact ⟨le_refl 0, by norm_num⟩
  · intro hinv
    have hcommit : Store.confidenceInv
        (commitTransition db file_id new_status fields) ∨
        fields.confidence_score.elim False (fun c2 => ¬ (0 ≤ c2 ∧ c2 ≤ 1)) := by
      cases hcf : fields.confidence_score with
      | none =>
        left
        refine confidenceInv_map db _ ?_ hinv
        intro x hx
        by_cases hid : (x.id == file_id) = true <;> simp [hid, applyUpdates, hcf, hx]
      | some c2 =>
        by_cases hc2 : 0 ≤ c2 ∧ c2 ≤ 1
        · left
          refine confidenceInv_map db _ ?_ hinv
          intro x hx
          by_cases hid : (x.id == file_id) = true <;>
            simp [hid, applyUpdates, hcf, hx, hc2]
        · right
          simpa using hc2
    cases hfe : db.findFile file_id with
    | none => simpa [transition, hfe] using hinv
    | some r =>
      by_cases hall : allowedTransition r.status new_status = true
      · cases hcf : fields.confidence_score with
        | none =>
          have heq : transition db file_id new_status fields =
              (commitTransition db file_id new_status fields, none) := by
            simp [transition, hfe, hall, hcf]
          rw [heq]
          rcases hcommit with h | h
          · exact h
          · simp [hcf] at h
        | some c2 =>
          by_cases hc2 : 0 ≤ c2 ∧ c2 ≤ 1
          · have heq : transition db file_id new_status fields =
                (commitTransition db file_id new_status fields, none) := by
              simp [transition, hfe, hall, hcf, hc2]
            rw [heq]
            rcases hcommit with h | h
            · exact h
            · simp [hcf] at h
              exact absurd (h hc2.1) (not_lt.mpr hc2.2)
          · have heq : transition db file_id new_status fields =
                (db, some .validationError) := by
              simp [transition, hfe, hall, hcf, hc2]
            rw [heq]
            exact hinv
      · have heq : transition db file_id new_status fields =
            (db, some .invalidTransitionError) := by
          simp [transition, hfe, hall]
        rw [heq]
        exact hinv

/-- C3 witness: writing 2 is rejected and mutates nothing, while the
in-range write 1 keeps every stored confidence within [0.0, 1.0]. -/
theorem confidence_score_invariant_witness :
    set_confidence_score sampleStore 1 2 = (sampleStore, some .validationError) ∧
    Store.confidenceInv (set_confidence_score sampleStore 1 1).1 :=
  ⟨(confidence_score_invariant sampleStore 1 2 "" "" 0 .audio .pending {}).1 (by decide),
   (confidence_score_invariant sampleStore 1 1 "" "" 0 .audio .pending {}).2.1 (by decide)⟩

/-- C5: deleting a MediaFile removes the row together with all of its
owned 1:1 children — afterwards no Fingerprint, MediaMetadata, MLFeatures
or ReviewQueue row referencing the deleted id remains in the store. -/
theorem delete_cascades (db : Store) (file_id : Nat) :
    ((delete_media_file db file_id).media_files.all fun r => r.id != file_id) = true ∧
    ((delete_media_file db file_id).fingerprints.all
      fun r => r.media_file_id != some file_id) = true ∧
    ((delete_media_file db file_id).media_metadata.all
      fun r => r.media_file_id != some file_id) = true ∧
    ((delete_media_file db file_id).ml_features.all
      fun r => r.media_file_id != some file_id) = true ∧
    ((delete_media_file db file_id).review_queue.all
      fun r => r.media_file_id != some file_id) = true := by
  refine ⟨?_, ?_, ?_, ?_, ?_⟩ <;>
    simp [delete_media_file, List.all_eq_true, List.mem_filter]

/-- Every declared table is present after `create_tables`. -/
theorem mem_create_tables (db : List String) (t : String) (h : t ∈ tableNames) :
    t ∈ create_tables db := by
  unfold create_tables
  by_cases hc : t ∈ db
  · exact List.mem_append.mpr (Or.inl hc)
  · refine List.mem_append.mpr (Or.inr (List.mem_filter.mpr ⟨h, ?_⟩))
    simp [List.elem_iff, hc]

/-- `create_tables` is idempotent: a second run adds nothing. -/
theorem create_tables_idem (db : List String) :
    create_tables (create_tables db) = create_tables db := by
  have hnil : tableNames.filter (fun t => !((create_tables db).contains t)) = [] := by
    apply List.filter_eq_nil_iff.mpr
    intro t ht
    simp [List.elem_iff, mem_create_tables db t ht]
  show create_tables db ++
      tableNames.filter (fun t => !((create_tables db).contains t)) = create_tables db
  rw [hnil, List.append_nil]

/-- C4 counterexample: the schema of database.py declares eight tables,
so `--init-db` on a fresh path creates eight of them, not the nine the
claim states. -/
theorem init_db_counterexample :
    (runInitDb (.ok sampleConfig) []).1.length = 8 ∧
    ¬ (runInitDb (.ok sampleConfig) []).1.length = 9 := by
  constructor <;> decide

/-- C4 (amended to the eight declared tables): `--init-db` on a fresh
database path creates exactly the eight schema tables and exits 0, and
running it again on any database is a no-op — the table set is unchanged,
no existing table is dropped, and the exit code is again 0. -/
theorem init_db_idempotent (cfg : Config) (db : List String) :
    (runInitDb (.ok cfg) []).1 = tableNames ∧
    (runInitDb (.ok cfg) []).2.1 = 0 ∧
    (runInitDb (.ok cfg) ((runInitDb (.ok cfg) db).1)).1 = (runInitDb (.ok cfg) db).1 ∧
    (runInitDb (.ok cfg) ((runInitDb (.ok cfg) db).1)).2.1 = 0 ∧
    (db.all fun t => (runInitDb (.ok cfg) db).1.contains t) = true := by
  refine ⟨?_, rfl, ?_, rfl, ?_⟩
  · show create_tables [] = tableNames
    rfl
  · show create_tables (create_tables db) = create_tables db
    exact create_tables_idem db
  · show (db.all fun t => (create_tables db).contains t) = true
    rw [List.all_eq_true]
    intro t ht
    simp [List.elem_iff]
    exact List.mem_append.mpr (Or.inl ht)

/-- C8: the store invariant `is_italian = true → italian_confidence` is
non-null — a write violating it fails with `ValidationError` leaving the
store unchanged, `attach_metadata` preserves the invariant, and writing
`is_italian = true, italian_confidence = 0.92` on an existing file then
reading the child back yields exactly the written values. -/
theorem metadata_italian_invariant (db : Store) (file_id : Nat)
    (payload : MediaMetadataRow) (r : MediaFileRow) :
    (payload.is_italian = true → payload.italian_confidence = none →
      attach_metadata db file_id payload = (db, some .validationError)) ∧
    (db.italianInv → Store.italianInv (attach_metadata db file_id payload).1) ∧
    (db.findFile file_id = some r →
      (attach_metadata db file_id
        { payload with is_italian := true, italian_confidence := some (0.92 : Rat) }).2
          = none ∧
      Store.findMetadata
        (attach_metadata db file_id
          { payload with is_italian := true, italian_confidence := some (0.92 : Rat) }).1
          file_id =
        some { payload with
          media_file_id := some file_id
          is_italian := true
          italian_confidence := some (0.92 : Rat) }) := by
  refine ⟨?_, ?_, ?_⟩
  · intro h1 h2
    simp [attach_metadata, h1, h2]
  · intro hinv
    unfold attach_metadata
    split
    case isTrue => simpa using hinv
    case isFalse hguard =>
      cases hfe : db.findFile file_id with
      | none => simpa using hinv
      | some x =>
        simp only []
        intro m hm
        rcases List.mem_append.mp hm with hl | hl
        · exact hinv m (List.mem_filter.mp hl).1
        · simp only [List.mem_singleton] at hl
          subst hl
          intro hital
          simp only [not_and] at hguard
          simpa using hguard hital
  · intro hfind
    have hguard : ¬ (({ payload with
        is_italian := true
        italian_confidence := some (0.92 : Rat) } : MediaMetadataRow).is_italian ∧
        ({ payload with
          is_italian := true
          italian_confidence := some (0.92 : Rat) } : MediaMetadataRow).italian_confidence
            = none) := by
      simp
    have hnone : (db.media_metadata.filter
        fun m => m.media_file_id ≠ some file_id).find?
          (fun m => m.media_file_id == some file_id) = none := by
      apply List.find?_eq_none.mpr
      intro x hx
      have hmem := (List.mem_filter.mp hx).2
      simp at hmem
      simp [hmem]
    constructor
    · simp [attach_metadata, hguard, hfind]
    · simp [attach_metadata, hguard, hfind, Store.findMetadata, List.find?_append, hnone]

/-- C8 witness: on the sample store, attaching `is_italian = true` with a
null confidence is rejected, and attaching it with confidence 0.92 to
file 1 reads back identically. -/
theorem metadata_italian_invariant_witness :
    attach_metadata sampleStore 1 samplePayloadBad = (sampleStore, some .validationError) ∧
    (attach_metadata sampleStore 1
      { samplePayload with is_italian := true, italian_confidence := some (0.92 : Rat) }).2
        = none ∧
    Store.findMetadata
      (attach_metadata sampleStore 1
        { samplePayload with is_italian := true, italian_confidence := some (0.92 : Rat) }).1
        1 =
      some { samplePayload with
        media_file_id := some 1
        is_italian := true
        italian_confidence := some (0.92 : Rat) } :=
  ⟨(metadata_italian_invariant sampleStore 1 samplePayloadBad sampleRow).1 rfl rfl,
   ((metadata_italian_invariant sampleStore 1 samplePayload sampleRow).2.2 (by decide)).1,
   ((metadata_italian_invariant sampleStore 1 samplePayload sampleRow).2.2 (by decide)).2⟩

/-- C6: on every configuration load, a present non-empty secret value
for the TMDB API key replaces whatever the main config file held, while
an absent secrets file, an absent key, or an empty value leaves the main
config file's value in place — the secret is never overwritten by the
config value. -/
theorem secrets_merge_override (cm : ConfigManager)
    (mainFiles : String → Option Config)
    (secretsFiles : String → Option (Option String)) (cfg : Config) (s : String)
    (hmain : mainFiles cm.config_path = some cfg) :
    (secretsFiles cm.secrets_path = some (some s) → s ≠ "" →
      ∃ cm2 merged, cm.load mainFiles secretsFiles = .ok (cm2, merged) ∧
        merged.metadata.tmdb.api_key = s) ∧
    ((secretsFiles cm.secrets_path = none ∨ secretsFiles cm.secrets_path = some none ∨
        secretsFiles cm.secrets_path = some (some "")) →
      ∃ cm2 merged, cm.load mainFiles secretsFiles = .ok (cm2, merged) ∧
        merged.metadata.tmdb.api_key = cfg.metadata.tmdb.api_key) := by
  constructor
  · intro hs hne
    unfold ConfigManager.load
    rw [hmain]
    simp only [hs, Option.bind_eq_bind, Option.some_bind, id]
    refine ⟨_, _, rfl, ?_⟩
    simp [mergeTmdbApiKey, hne]
  · intro hs
    unfold ConfigManager.load
    rw [hmain]
    rcases hs with hs | hs | hs <;>
      · simp only [hs, Option.bind_eq_bind, Option.some_bind, Option.none_bind, id]
        refine ⟨_, _, rfl, ?_⟩
        simp [mergeTmdbApiKey]

/-- C6 witness: the key from `config/secrets.yaml` wins over the empty
main-config key, and with no secrets file the main-config key stays. -/
theorem secrets_merge_override_witness :
    (∃ cm2 merged,
      (ConfigManager.init "custom/app.yaml").load mainFilesSample secretsWithKey =
        .ok (cm2, merged) ∧ merged.metadata.tmdb.api_key = "SECRET-KEY") ∧
    (∃ cm2 merged,
      (ConfigManager.init "custom/app.yaml").load mainFilesSample secretsAbsent =
        .ok (cm2, merged) ∧
        merged.metadata.tmdb.api_key = sampleConfig.metadata.tmdb.api_key) :=
  ⟨(secrets_merge_override (ConfigManager.init "custom/app.yaml") mainFilesSample
      secretsWithKey sampleConfig "SECRET-KEY" rfl).1 rfl (by decide),
   (secrets_merge_override (ConfigManager.init "custom/app.yaml") mainFilesSample
      secretsAbsent sampleConfig "SECRET-KEY" rfl).2 (Or.inl rfl)⟩

/-- C7: the CLI entry point exits 0 with nothing on standard error when
the body completes normally (graceful shutdown), and exits 1 printing
exactly one line to standard error when the configuration file is
missing, a configuration value is invalid, or any other fatal error is
raised. -/
theorem main_exit_codes (cfgLoad : Except PyError Config) :
    (∀ cfg, cfgLoad = .ok cfg → runMain cfgLoad = (0, [])) ∧
    (∀ e, cfgLoad = .error e →
      (runMain cfgLoad).1 = 1 ∧ (runMain cfgLoad).2.length = 1) := by
  constructor
  · intro cfg h
    simp [runMain, h, mainResult]
  · intro e h
    cases e <;> simp [runMain, h, mainResult]

/-- C7 witness: a normal run exits 0 silently; a missing config file
exits 1 with a single stderr line. -/
theorem main_exit_codes_witness :
    runMain (.ok sampleConfig) = (0, []) ∧
    (runMain (.error (.fileNotFoundError
        "Configuration file not found: config/config.yaml"))).1 = 1 ∧
    (runMain (.error (.fileNotFoundError
        "Configuration file not found: config/config.yaml"))).2.length = 1 :=
  ⟨(main_exit_codes (.ok sampleConfig)).1 sampleConfig rfl,
   ((main_exit_codes (.error (.fileNotFoundError
      "Configuration file not found: config/config.yaml"))).2
      (.fileNotFoundError "Configuration file not found: config/config.yaml") rfl).1,
   ((main_exit_codes (.error (.fileNotFoundError
      "Configuration file not found: config/config.yaml"))).2
      (.fileNotFoundError "Configuration file not found: config/config.yaml") rfl).2⟩

/-- C9: `get_config`, `get_logger` and `audit_log` raise `RuntimeError`
when the corresponding global has not been set up — including when
`load_config` failed and left a manager with no loaded configuration —
and after a successful `load_config`/`init_logger` each getter returns
the initialized instance. -/
theorem singleton_accessors (path msg ldir llevel rot ret : String)
    (mainFiles : String → Option Config)
    (secretsFiles : String → Option (Option String)) (cfg : Config) :
    get_config none =
      .error (.runtimeError "Configuration not loaded. Call load_config() first.") ∧
    get_logger none =
      .error (.runtimeError "Logger not initialized. Call init_logger() first.") ∧
    audit_log none msg =
      .error (.runtimeError "Logger not initialized. Call init_logger() first.") ∧
    (mainFiles path = some cfg →
      ∃ c, (load_config path mainFiles secretsFiles).2 = .ok c ∧
        get_config (load_config path mainFiles secretsFiles).1 = .ok c) ∧
    (mainFiles path = none →
      get_config (load_config path mainFiles secretsFiles).1 =
        .error (.runtimeError "Configuration not loaded. Call load() first.")) ∧
    get_logger (init_logger ldir llevel rot ret).1 =
      .ok (init_logger ldir llevel rot ret).2 ∧
    audit_log (init_logger ldir llevel rot ret).1 msg = .ok msg := by
  refine ⟨rfl, rfl, rfl, ?_, ?_, rfl, rfl⟩
  · intro hmain
    unfold load_config ConfigManager.load
    simp only [ConfigManager.init, hmain]
    exact ⟨_, rfl, rfl⟩
  · intro hmain
    unfold load_config ConfigManager.load
    simp only [ConfigManager.init, hmain]
    rfl

/-- C9 witness: the accessors at concrete global states — unset globals
raise, a successful load and logger setup hand the instances back. -/
theorem singleton_accessors_witness :
    get_config none =
      .error (.runtimeError "Configuration not loaded. Call load_config() first.") ∧
    (∃ c, (load_config "custom/app.yaml" mainFilesSample secretsAbsent).2 = .ok c ∧
      get_config (load_config "custom/app.yaml" mainFilesSample secretsAbsent).1 = .ok c) ∧
    get_config (load_config "missing.yaml" mainFilesSample secretsAbsent).1 =
      .error (.runtimeError "Configuration not loaded. Call load() first.") ∧
    get_logger (init_logger "./logs" "INFO" "10 MB" "1 week").1 =
      .ok (init_logger "./logs" "INFO" "10 MB" "1 week").2 :=
  ⟨(singleton_accessors "custom/app.yaml" "m" "./logs" "INFO" "10 MB" "1 week"
      mainFilesSample secretsAbsent sampleConfig).1,
   (singleton_accessors "custom/app.yaml" "m" "./logs" "INFO" "10 MB" "1 week"
      mainFilesSample secretsAbsent sampleConfig).2.2.2.1 rfl,
   (singleton_accessors "missing.yaml" "m" "./logs" "INFO" "10 MB" "1 week"
      mainFilesSample secretsAbsent sampleConfig).2.2.2.2.1 rfl,
   (singleton_accessors "custom/app.yaml" "m" "./logs" "INFO" "10 MB" "1 week"
      mainFilesSample secretsAbsent sampleConfig).2.2.2.2.2.1⟩

/-- C10: whatever `config_path` is handed to `ConfigManager`, the secrets
file is read from the fixed working-directory path `config/secrets.yaml`;
two loads of the same main config file under different working-directory
secrets files therefore yield different `api_key` values. -/
theorem secrets_path_independent (p : String) :
    (ConfigManager.init p).secrets_path = "config/secrets.yaml" ∧
    loadedApiKey (ConfigManager.init "custom/app.yaml") mainFilesSample secretsWithKey =
      some "SECRET-KEY" ∧
    loadedApiKey (ConfigManager.init "custom/app.yaml") mainFilesSample secretsAbsent =
      some "" ∧
    ("SECRET-KEY" : String) ≠ "" := by
  refine ⟨rfl, ?_, ?_, by decide⟩
  · rfl
  · rfl

end MediaOrganizer
